import Mathlib

/-!
Verification development for the stars-bot payment service.

Shallow embedding of the payment lifecycle code:
  * `stars_bot/utils.py`        — `get_stars_amount_for_credits` (currency converter)
  * `stars_bot/keyboards.py`    — `TOPUP_OPTIONS` / `get_stars_for_credits`
  * `stars_bot/database/operations.py` — the store operations used by completion
  * `stars_bot/services.py`     — `process_payment_success`, `process_payment_manually`
  * `stars_bot/handlers.py`     — `_extract_payment_id_from_payload`,
                                  `pre_checkout_handler`, `on_successful_payment`

Python float arithmetic on the small quantities involved is modelled by exact
rational arithmetic (`ℚ`); `int(x)` truncation toward zero is `pyTrunc` and
`math.ceil` is `Int.ceil`.  The database is modelled as explicit lists standing
for the `payments`, `users` (balance) and `referrals` tables; each SQL statement
of `operations.py` becomes a pure function on that state.  Exceptions raised by
the balance-credit UPDATE are modelled by the boolean `creditOk` parameter
(the surrounding SQL transaction rolls back, so a failed credit leaves the
store unchanged).  Timestamps are not modelled.
-/

/-- Python `int(x)` on a real value: truncation toward zero. -/
def pyTrunc (q : ℚ) : ℤ := if q < 0 then ⌈q⌉ else ⌊q⌋

/-- Truthiness of a Python `Optional[int]`: `None` and `0` are falsy. -/
def pyOptTruthy : Option ℤ → Bool
  | none => false
  | some n => n != 0

/-- Association-list lookup with integer keys, mirroring a Python dict lookup
(`stars_map[credits]` / `CREDITS_TO_STARS.get`). -/
def lookupKV (k : ℤ) : List (ℤ × ℤ) → Option ℤ
  | [] => none
  | (a, b) :: t => if k = a then some b else lookupKV k t

/-- The anchor table `stars_map` of `get_stars_amount_for_credits`
(`utils.py`). -/
def stars_map : List (ℤ × ℤ) :=
  [(150, 400), (250, 650), (500, 1300), (1000, 2600), (1500, 3850), (2000, 5150)]

/-- `sorted(stars_map.keys())` in `utils.py`. -/
def sorted_presets : List ℤ := [150, 250, 500, 1000, 1500, 2000]

/-- The preset-bracketing loop of `get_stars_amount_for_credits`: walks the
sorted presets, remembering the last preset `≤ credits` as the lower bracket,
and stops at the first preset `≥ credits`, which becomes the upper bracket. -/
def findPresetsLoop (credits : ℤ) : List ℤ → Option ℤ → Option ℤ × Option ℤ
  | [], lower => (lower, none)
  | p :: rest, lower =>
    if credits ≤ p then ((if p ≤ credits then some p else lower), some p)
    else findPresetsLoop credits rest (if p ≤ credits then some p else lower)

/-- `utils.get_stars_amount_for_credits`: anchor table hit, extrapolation by
the edge ratios below the lowest / above the highest anchor (truncating), and
ceiling linear interpolation between bracketing anchors otherwise. -/
def get_stars_amount_for_credits (credits : ℤ) : ℤ :=
  match lookupKV credits stars_map with
  | some v => v
  | none =>
    if credits < sorted_presets.headI then
      pyTrunc ((credits : ℚ) * 400 / 150)
    else if sorted_presets.getLastD 0 < credits then
      pyTrunc ((credits : ℚ) * 5150 / 2000)
    else
      match findPresetsLoop credits sorted_presets none with
      | (lowOpt, upOpt) =>
        if pyOptTruthy lowOpt && pyOptTruthy upOpt then
          let lower : ℤ := lowOpt.getD 0
          let upper : ℤ := upOpt.getD 0
          let lower_stars : ℤ := (lookupKV lower stars_map).getD 0
          let upper_stars : ℤ := (lookupKV upper stars_map).getD 0
          let ratio : ℚ := (((credits : ℚ) - lower)) / (((upper : ℚ) - lower))
          let stars : ℚ := (lower_stars : ℚ) + ((upper_stars : ℚ) - lower_stars) * ratio
          ⌈stars⌉
        else
          pyTrunc ((credits : ℚ) * (26 / 10))

/-- `keyboards.TOPUP_OPTIONS`: `(stars, usd, credits)` rows. -/
def TOPUP_OPTIONS : List (ℤ × ℤ × ℤ) :=
  [(200, 3, 150), (400, 6, 300), (650, 10, 500), (1300, 20, 1000),
   (2600, 40, 2000), (3850, 60, 3000), (5150, 80, 4000)]

/-- `keyboards.CREDITS_TO_STARS`: the dict comprehension `{credits: stars}`. -/
def CREDITS_TO_STARS : List (ℤ × ℤ) :=
  TOPUP_OPTIONS.map (fun r => (r.2.2, r.1))

/-- `keyboards.get_stars_for_credits`: table lookup with the currency
converter as the fallback. -/
def get_stars_for_credits (credits : ℤ) : ℤ :=
  (lookupKV credits CREDITS_TO_STARS).getD (get_stars_amount_for_credits credits)

/-- A row of the `payments` table, as selected by the store operations and
carried by `models.PaymentRecord`.  The optional USD columns are the
breakdown written at completion.  Timestamps are not modelled. -/
structure PaymentRecord where
  id : ℤ
  user_id : ℤ
  amount : ℤ
  status : String
  payment_provider : String
  bot_owner_id : Option ℤ := none
  bot_id : Option String := none
  external_payment_id : Option String := none
  net_amount_usd : Option ℚ := none
  gross_amount_usd : Option ℚ := none
  fee_amount_usd : Option ℚ := none
deriving DecidableEq

/-- The durable store: `payments` rows, `users` balances (`user_id ↦ balance`),
and `referrals` statuses (`referred_id ↦ status`). -/
structure DB where
  payments : List PaymentRecord
  balances : List (ℤ × ℤ)
  referrals : List (ℤ × String)
deriving DecidableEq

/-- `SELECT ... FROM payments WHERE id = $1` (first matching row). -/
def findPaymentById : List PaymentRecord → ℤ → Option PaymentRecord
  | [], _ => none
  | p :: t, pid => if p.id = pid then some p else findPaymentById t pid

/-- `SELECT ... FROM payments WHERE external_payment_id = $1 AND
payment_provider = $2`. -/
def findPaymentByExternal : List PaymentRecord → String → String → Option PaymentRecord
  | [], _, _ => none
  | p :: t, ext, prov =>
    if p.external_payment_id = some ext ∧ p.payment_provider = prov then some p
    else findPaymentByExternal t ext prov

/-- `services.get_payment_by_id` / `db_get_payment_row_by_id`. -/
def get_payment_by_id (db : DB) (payment_id : ℤ) : Option PaymentRecord :=
  findPaymentById db.payments payment_id

/-- `services.get_payment_by_external_id` / `db_get_payment_row_by_external_id`. -/
def get_payment_by_external_id (db : DB) (ext prov : String) : Option PaymentRecord :=
  findPaymentByExternal db.payments ext prov

/-- Balance of a user row, if the row exists. -/
def findBal : List (ℤ × ℤ) → ℤ → Option ℤ
  | [], _ => none
  | (k, b) :: t, u => if k = u then some b else findBal t u

/-- Observable balance of a user (0 when the row is absent). -/
def balanceOf (db : DB) (u : ℤ) : ℤ := (findBal db.balances u).getD 0

/-- `INSERT INTO users(user_id, balance) VALUES($1,0) ON CONFLICT DO NOTHING`. -/
def ensureUser (l : List (ℤ × ℤ)) (u : ℤ) : List (ℤ × ℤ) :=
  if (findBal l u).isSome then l else l ++ [(u, 0)]

/-- `UPDATE users SET balance = COALESCE(balance,0) + $1 WHERE user_id = $2`. -/
def addBalance (l : List (ℤ × ℤ)) (u δ : ℤ) : List (ℤ × ℤ) :=
  l.map (fun e => if e.1 = u then (e.1, e.2 + δ) else e)

/-- `operations.db_add_credits`: create the user row if absent, then add the
delta to its balance, in one transaction. -/
def db_add_credits (db : DB) (u δ : ℤ) : DB :=
  { db with balances := addBalance (ensureUser db.balances u) u δ }

/-- `operations.db_add_referral_bonus`: skipped when `bot_owner_id` is falsy
(`None` or `0`) or when `int(amount * 0.05)` is not positive; otherwise the
bonus is added to the owner balance exactly like `db_add_credits`. -/
def db_add_referral_bonus (db : DB) (amount : ℤ) (bot_owner_id : Option ℤ) : Bool × DB :=
  if pyOptTruthy bot_owner_id = false then (false, db)
  else
    let owner : ℤ := bot_owner_id.getD 0
    let bonus : ℤ := pyTrunc ((amount : ℚ) * (5 / 100))
    if bonus ≤ 0 then (false, db)
    else (true, { db with balances := addBalance (ensureUser db.balances owner) owner bonus })

/-- `UPDATE payments SET status = $1 WHERE id = $2`. -/
def updateStatus (l : List PaymentRecord) (pid : ℤ) (st : String) : List PaymentRecord :=
  l.map (fun p => if p.id = pid then { p with status := st } else p)

/-- `operations.db_update_payment_status_by_id`: the boolean reports whether a
row matched (the `UPDATE 0` check). -/
def db_update_payment_status_by_id (db : DB) (pid : ℤ) (st : String) : Bool × DB :=
  ((findPaymentById db.payments pid).isSome,
   { db with payments := updateStatus db.payments pid st })

/-- `UPDATE payments SET net_amount_usd, gross_amount_usd, fee_amount_usd`. -/
def updateUsd (l : List PaymentRecord) (pid : ℤ) (n g f : Option ℚ) : List PaymentRecord :=
  l.map (fun p =>
    if p.id = pid then
      { p with net_amount_usd := n, gross_amount_usd := g, fee_amount_usd := f }
    else p)

/-- `operations.db_update_payment_usd_breakdown`. -/
def db_update_payment_usd_breakdown (db : DB) (pid : ℤ) (n g f : Option ℚ) : DB :=
  { db with payments := updateUsd db.payments pid n g f }

/-- `operations.db_update_referral_status`:
`UPDATE referrals SET status = $1 WHERE referred_id = $2`. -/
def db_update_referral_status (db : DB) (referred_id : ℤ) (st : String) : DB :=
  { db with referrals := db.referrals.map (fun r => if r.1 = referred_id then (r.1, st) else r) }

/-- `models.STARS_TO_USD_RATE = 0.01`. -/
def STARS_TO_USD_RATE : ℚ := 1 / 100

/-- `services.process_payment_success`.  `creditOk = false` models the
balance-credit UPDATE raising (its transaction rolls back, so the store is
unchanged and the function returns a failure result). -/
def process_payment_success (db : DB) (creditOk : Bool)
    (payment_id user_id amount stars_amount : ℤ)
    (payment_data : Option PaymentRecord) : (Bool × Option PaymentRecord) × DB :=
  let pd? : Option PaymentRecord :=
    match payment_data with
    | some pd => some pd
    | none => get_payment_by_id db payment_id
  match pd? with
  | none => ((false, none), db)
  | some pd =>
    if pd.status = "completed" then ((true, none), db)
    else
      let bot_owner_id := pd.bot_owner_id
      if creditOk = false then ((false, none), db)
      else
        let db1 := db_add_credits db user_id amount
        let db2 := (db_update_payment_status_by_id db1 payment_id "completed").2
        let db3 :=
          if pyOptTruthy bot_owner_id then (db_add_referral_bonus db2 amount bot_owner_id).2
          else db2
        let db4 := db_update_referral_status db3 user_id "completed"
        let gross_amount_usd : ℚ := (stars_amount : ℚ) * STARS_TO_USD_RATE
        let db5 := db_update_payment_usd_breakdown db4 payment_id
          (some gross_amount_usd) (some gross_amount_usd) (some 0)
        ((true, some pd), db5)

/-- `services.process_payment_manually`: lookup by external id, provider
check, the same idempotency short-circuit, then credit, referral bonus,
referral status and finally the status update.  No USD breakdown is written. -/
def process_payment_manually (db : DB) (creditOk : Bool)
    (external_payment_id payment_provider : String) : (Bool × Option PaymentRecord) × DB :=
  match get_payment_by_external_id db external_payment_id payment_provider with
  | none => ((false, none), db)
  | some pd =>
    if pd.payment_provider ≠ payment_provider then ((false, none), db)
    else if pd.status = "completed" then ((true, none), db)
    else if creditOk = false then ((false, none), db)
    else
      let db1 := db_add_credits db pd.user_id pd.amount
      let db2 :=
        if pyOptTruthy pd.bot_owner_id then (db_add_referral_bonus db1 pd.amount pd.bot_owner_id).2
        else db1
      let db3 := db_update_referral_status db2 pd.user_id "completed"
      let db4 := (db_update_payment_status_by_id db3 pd.id "completed").2
      ((true, some pd), db4)

/-- Python `str.split(sep)` for a one-character separator, on char lists. -/
def splitOnChar (sep : Char) : List Char → List (List Char)
  | [] => [[]]
  | c :: t =>
    if c = sep then [] :: splitOnChar sep t
    else
      match splitOnChar sep t with
      | [] => [[c]]
      | h :: r => (c :: h) :: r

/-- Whether the char list begins with the literal `payment_`
(`payload.startswith("payment_")`; the empty payload fails this too). -/
def hasPaymentTag : List Char → Bool
  | 'p' :: 'a' :: 'y' :: 'm' :: 'e' :: 'n' :: 't' :: '_' :: _ => true
  | _ => false

/-- Accumulate decimal digits into a natural number. -/
def digitsToNat (cs : List Char) : ℕ :=
  cs.foldl (fun n c => 10 * n + (c.toNat - 48)) 0

/-- Python `int(s)` on the strings reachable here: optional sign followed by
at least one decimal digit, `ValueError` (`none`) otherwise. -/
def pyParseInt (s : List Char) : Option ℤ :=
  match s with
  | [] => none
  | '-' :: rest =>
    if rest ≠ [] ∧ rest.all Char.isDigit then some (-(digitsToNat rest : ℤ)) else none
  | '+' :: rest =>
    if rest ≠ [] ∧ rest.all Char.isDigit then some ((digitsToNat rest : ℤ)) else none
  | cs =>
    if cs.all Char.isDigit then some ((digitsToNat cs : ℤ)) else none

/-- `handlers._extract_payment_id_from_payload`: require the `payment_`
prefix, split on underscores and parse the second piece as an integer. -/
def _extract_payment_id_from_payload (payload : String) : Option ℤ :=
  if hasPaymentTag payload.data = false then none
  else
    match (splitOnChar '_' payload.data).get? 1 with
    | none => none
    | some s => pyParseInt s

/-- Outcome of the pre-checkout gate.  A rejection carries the translation
key of the error message (`invalid_payload` / `not_found` /
`already_processed` in the words of the specification). -/
inductive CheckoutAnswer where
  | accept : CheckoutAnswer
  | reject : String → CheckoutAnswer
deriving DecidableEq

/-- `handlers.pre_checkout_handler`: decode the payload (`if not payment_id`
treats a decoded `0` like a missing id), look the payment up, reject completed
payments, and accept otherwise.  The store is returned unchanged: the gate is
read-only. -/
def pre_checkout_handler (db : DB) (payload : String) : CheckoutAnswer × DB :=
  let payment_id := _extract_payment_id_from_payload payload
  if pyOptTruthy payment_id = false then (.reject "stars_bot_invalid_payload", db)
  else
    match get_payment_by_id db (payment_id.getD 0) with
    | none => (.reject "stars_bot_payment_not_found", db)
    | some payment =>
      if payment.status = "completed" then (.reject "stars_bot_payment_already_processed", db)
      else (.accept, db)

/-- `handlers.on_successful_payment`: the provider-driven completion entry
point.  `from_user` is `msg.from_user.id` (when present), `total_amount` the
stars amount reported by the provider.  Decodes the payload, loads the
payment, requires provider `stars`, requires the message user to equal the
recorded payment user, and only then runs `process_payment_success` with the
loaded record.  Every guard failure returns with the store untouched. -/
def on_successful_payment (db : DB) (creditOk : Bool)
    (from_user : Option ℤ) (payload : String) (total_amount : ℤ) : DB :=
  match _extract_payment_id_from_payload payload with
  | none => db
  | some pid =>
    if pid = 0 then db
    else
      match get_payment_by_id db pid with
      | none => db
      | some payment_data =>
        if payment_data.payment_provider ≠ "stars" then db
        else if from_user ≠ some payment_data.user_id then db
        else
          (process_payment_success db creditOk pid payment_data.user_id
            payment_data.amount total_amount (some payment_data)).2


/-! ### Sample store contents used by concrete witnesses -/

/-- A pending payment without referral attribution. -/
def payPending : PaymentRecord :=
  { id := 1, user_id := 7, amount := 100, status := "pending",
    payment_provider := "stars", external_payment_id := some "stars_1" }

/-- A pending payment attributed to bot owner 5. -/
def payOwner : PaymentRecord :=
  { id := 2, user_id := 7, amount := 100, status := "pending",
    payment_provider := "stars", bot_owner_id := some 5,
    external_payment_id := some "stars_2" }

/-- A pending payment whose `bot_owner_id` column holds 0. -/
def payOwnerZero : PaymentRecord :=
  { id := 3, user_id := 7, amount := 100, status := "pending",
    payment_provider := "stars", bot_owner_id := some 0,
    external_payment_id := some "stars_3" }

/-- An already-completed payment. -/
def payDone : PaymentRecord :=
  { id := 4, user_id := 7, amount := 100, status := "completed",
    payment_provider := "stars", external_payment_id := some "stars_4" }

/-- A small store holding the four sample payments and no balances. -/
def sampleDB : DB := { payments := [payPending, payOwner, payOwnerZero, payDone],
                       balances := [], referrals := [] }

/-- A pending payment whose bot owner is the paying user itself. -/
def payOwnerSelf : PaymentRecord :=
  { id := 5, user_id := 7, amount := 100, status := "pending",
    payment_provider := "stars", bot_owner_id := some 7,
    external_payment_id := some "stars_5" }

/-- A store holding only the self-owned sample payment. -/
def selfOwnerDB : DB := { payments := [payOwnerSelf], balances := [], referrals := [] }

/-! ### Lemmas about the currency converter -/

/-- Truncation toward zero is monotone. -/
theorem pyTrunc_mono {q r : ℚ} (h : q ≤ r) : pyTrunc q ≤ pyTrunc r := by
  unfold pyTrunc
  rcases lt_or_le q 0 with h1 | h1 <;> rcases lt_or_le r 0 with h2 | h2
  · rw [if_pos h1, if_pos h2]; exact Int.ceil_le_ceil h
  · rw [if_pos h1, if_neg (not_lt.mpr h2)]
    exact le_trans (Int.ceil_le.mpr (by push_cast; exact h1.le)) (Int.floor_nonneg.mpr h2)
  · exact absurd (h.trans_lt h2) (not_lt.mpr h1)
  · rw [if_neg (not_lt.mpr h1), if_neg (not_lt.mpr h2)]; exact Int.floor_le_floor h

/-- A credits value distinct from every anchor misses the anchor table. -/
theorem lookupKV_stars_map_eq_none {c : ℤ} (h1 : c ≠ 150) (h2 : c ≠ 250) (h3 : c ≠ 500)
    (h4 : c ≠ 1000) (h5 : c ≠ 1500) (h6 : c ≠ 2000) : lookupKV c stars_map = none := by
  simp [lookupKV, stars_map, h1, h2, h3, h4, h5, h6]

/-- Below the lowest anchor the converter extrapolates with the lowest
anchor ratio, truncating. -/
theorem gsafc_below {c : ℤ} (h : c < 150) :
    get_stars_amount_for_credits c = pyTrunc ((c : ℚ) * 400 / 150) := by
  have hl : lookupKV c stars_map = none :=
    lookupKV_stars_map_eq_none (by omega) (by omega) (by omega) (by omega) (by omega) (by omega)
  simp only [get_stars_amount_for_credits, hl]
  rw [show sorted_presets.headI = 150 from rfl, if_pos h]

/-- Above the highest anchor the converter extrapolates with the highest
anchor ratio, truncating. -/
theorem gsafc_above {c : ℤ} (h : 2000 < c) :
    get_stars_amount_for_credits c = pyTrunc ((c : ℚ) * 5150 / 2000) := by
  have hl : lookupKV c stars_map = none :=
    lookupKV_stars_map_eq_none (by omega) (by omega) (by omega) (by omega) (by omega) (by omega)
  simp only [get_stars_amount_for_credits, hl]
  rw [show sorted_presets.headI = 150 from rfl, if_neg (by omega : ¬ c < 150),
    show sorted_presets.getLastD 0 = 2000 from rfl, if_pos h]

/-- Strictly between the anchors 150 and 250 the bracketing loop returns
exactly that pair. -/
theorem loop_150_250 {c : ℤ} (h1 : 150 < c) (h2 : c < 250) :
    findPresetsLoop c sorted_presets none = (some 150, some 250) := by
  simp only [sorted_presets, findPresetsLoop,
    if_neg (show ¬ c ≤ 150 by omega), if_pos (show (150 : ℤ) ≤ c by omega),
    if_pos (show c ≤ 250 by omega), if_neg (show ¬ (250 : ℤ) ≤ c by omega)]

/-- Strictly between the anchors 250 and 500 the bracketing loop returns
exactly that pair. -/
theorem loop_250_500 {c : ℤ} (h1 : 250 < c) (h2 : c < 500) :
    findPresetsLoop c sorted_presets none = (some 250, some 500) := by
  simp only [sorted_presets, findPresetsLoop,
    if_neg (show ¬ c ≤ 150 by omega), if_pos (show (150 : ℤ) ≤ c by omega),
    if_neg (show ¬ c ≤ 250 by omega), if_pos (show (250 : ℤ) ≤ c by omega),
    if_pos (show c ≤ 500 by omega), if_neg (show ¬ (500 : ℤ) ≤ c by omega)]

/-- Strictly between the anchors 500 and 1000 the bracketing loop returns
exactly that pair. -/
theorem loop_500_1000 {c : ℤ} (h1 : 500 < c) (h2 : c < 1000) :
    findPresetsLoop c sorted_presets none = (some 500, some 1000) := by
  simp only [sorted_presets, findPresetsLoop,
    if_neg (show ¬ c ≤ 150 by omega), if_pos (show (150 : ℤ) ≤ c by omega),
    if_neg (show ¬ c ≤ 250 by omega), if_pos (show (250 : ℤ) ≤ c by omega),
    if_neg (show ¬ c ≤ 500 by omega), if_pos (show (500 : ℤ) ≤ c by omega),
    if_pos (show c ≤ 1000 by omega), if_neg (show ¬ (1000 : ℤ) ≤ c by omega)]

/-- Strictly between the anchors 1000 and 1500 the bracketing loop returns
exactly that pair. -/
theorem loop_1000_1500 {c : ℤ} (h1 : 1000 < c) (h2 : c < 1500) :
    findPresetsLoop c sorted_presets none = (some 1000, some 1500) := by
  simp only [sorted_presets, findPresetsLoop,
    if_neg (show ¬ c ≤ 150 by omega), if_pos (show (150 : ℤ) ≤ c by omega),
    if_neg (show ¬ c ≤ 250 by omega), if_pos (show (250 : ℤ) ≤ c by omega),
    if_neg (show ¬ c ≤ 500 by omega), if_pos (show (500 : ℤ) ≤ c by omega),
    if_neg (show ¬ c ≤ 1000 by omega), if_pos (show (1000 : ℤ) ≤ c by omega),
    if_pos (show c ≤ 1500 by omega), if_neg (show ¬ (1500 : ℤ) ≤ c by omega)]

/-- Strictly between the anchors 1500 and 2000 the bracketing loop returns
exactly that pair. -/
theorem loop_1500_2000 {c : ℤ} (h1 : 1500 < c) (h2 : c < 2000) :
    findPresetsLoop c sorted_presets none = (some 1500, some 2000) := by
  simp only [sorted_presets, findPresetsLoop,
    if_neg (show ¬ c ≤ 150 by omega), if_pos (show (150 : ℤ) ≤ c by omega),
    if_neg (show ¬ c ≤ 250 by omega), if_pos (show (250 : ℤ) ≤ c by omega),
    if_neg (show ¬ c ≤ 500 by omega), if_pos (show (500 : ℤ) ≤ c by omega),
    if_neg (show ¬ c ≤ 1000 by omega), if_pos (show (1000 : ℤ) ≤ c by omega),
    if_neg (show ¬ c ≤ 1500 by omega), if_pos (show (1500 : ℤ) ≤ c by omega),
    if_pos (show c ≤ 2000 by omega), if_neg (show ¬ (2000 : ℤ) ≤ c by omega)]

/-- Closed form of the converter on the whole segment between the anchors
150 and 250: ceiling linear interpolation (exact at both endpoints). -/
theorem gsafc_interp_150_250 {c : ℤ} (h1 : 150 ≤ c) (h2 : c ≤ 250) :
    get_stars_amount_for_credits c =
      ⌈(400 : ℚ) + (650 - 400) * (((c : ℚ) - 150) / (250 - 150))⌉ := by
  rcases eq_or_lt_of_le h1 with he | h1'
  · rw [← he, show get_stars_amount_for_credits 150 = 400 from rfl,
      show ((400 : ℚ) + (650 - 400) * ((((150 : ℤ) : ℚ) - 150) / (250 - 150))) = ((400 : ℤ) : ℚ)
        by push_cast; ring, Int.ceil_intCast]
  rcases eq_or_lt_of_le h2 with he2 | h2'
  · rw [he2, show get_stars_amount_for_credits 250 = 650 from rfl,
      show ((400 : ℚ) + (650 - 400) * ((((250 : ℤ) : ℚ) - 150) / (250 - 150))) = ((650 : ℤ) : ℚ)
        by push_cast; ring, Int.ceil_intCast]
  have hl : lookupKV c stars_map = none :=
    lookupKV_stars_map_eq_none (by omega) (by omega) (by omega) (by omega) (by omega) (by omega)
  have hloop := loop_150_250 h1' h2'
  simp only [get_stars_amount_for_credits, hl, hloop]
  rw [show sorted_presets.headI = 150 from rfl, if_neg (by omega : ¬ c < 150),
    show sorted_presets.getLastD 0 = 2000 from rfl, if_neg (by omega : ¬ (2000 : ℤ) < c)]
  norm_num [pyOptTruthy, lookupKV, stars_map]

/-- Closed form of the converter on the whole segment between the anchors
250 and 500. -/
theorem gsafc_interp_250_500 {c : ℤ} (h1 : 250 ≤ c) (h2 : c ≤ 500) :
    get_stars_amount_for_credits c =
      ⌈(650 : ℚ) + (1300 - 650) * (((c : ℚ) - 250) / (500 - 250))⌉ := by
  rcases eq_or_lt_of_le h1 with he | h1'
  · rw [← he, show get_stars_amount_for_credits 250 = 650 from rfl,
      show ((650 : ℚ) + (1300 - 650) * ((((250 : ℤ) : ℚ) - 250) / (500 - 250))) = ((650 : ℤ) : ℚ)
        by push_cast; ring, Int.ceil_intCast]
  rcases eq_or_lt_of_le h2 with he2 | h2'
  · rw [he2, show get_stars_amount_for_credits 500 = 1300 from rfl,
      show ((650 : ℚ) + (1300 - 650) * ((((500 : ℤ) : ℚ) - 250) / (500 - 250))) = ((1300 : ℤ) : ℚ)
        by push_cast; ring, Int.ceil_intCast]
  have hl : lookupKV c stars_map = none :=
    lookupKV_stars_map_eq_none (by omega) (by omega) (by omega) (by omega) (by omega) (by omega)
  have hloop := loop_250_500 h1' h2'
  simp only [get_stars_amount_for_credits, hl, hloop]
  rw [show sorted_presets.headI = 150 from rfl, if_neg (by omega : ¬ c < 150),
    show sorted_presets.getLastD 0 = 2000 from rfl, if_neg (by omega : ¬ (2000 : ℤ) < c)]
  norm_num [pyOptTruthy, lookupKV, stars_map]

/-- Closed form of the converter on the whole segment between the anchors
500 and 1000. -/
theorem gsafc_interp_500_1000 {c : ℤ} (h1 : 500 ≤ c) (h2 : c ≤ 1000) :
    get_stars_amount_for_credits c =
      ⌈(1300 : ℚ) + (2600 - 1300) * (((c : ℚ) - 500) / (1000 - 500))⌉ := by
  rcases eq_or_lt_of_le h1 with he | h1'
  · rw [← he, show get_stars_amount_for_credits 500 = 1300 from rfl,
      show ((1300 : ℚ) + (2600 - 1300) * ((((500 : ℤ) : ℚ) - 500) / (1000 - 500))) = ((1300 : ℤ) : ℚ)
        by push_cast; ring, Int.ceil_intCast]
  rcases eq_or_lt_of_le h2 with he2 | h2'
  · rw [he2, show get_stars_amount_for_credits 1000 = 2600 from rfl,
      show ((1300 : ℚ) + (2600 - 1300) * ((((1000 : ℤ) : ℚ) - 500) / (1000 - 500))) = ((2600 : ℤ) : ℚ)
        by push_cast; ring, Int.ceil_intCast]
  have hl : lookupKV c stars_map = none :=
    lookupKV_stars_map_eq_none (by omega) (by omega) (by omega) (by omega) (by omega) (by omega)
  have hloop := loop_500_1000 h1' h2'
  simp only [get_stars_amount_for_credits, hl, hloop]
  rw [show sorted_presets.headI = 150 from rfl, if_neg (by omega : ¬ c < 150),
    show sorted_presets.getLastD 0 = 2000 from rfl, if_neg (by omega : ¬ (2000 : ℤ) < c)]
  norm_num [pyOptTruthy, lookupKV, stars_map]

/-- Closed form of the converter on the whole segment between the anchors
1000 and 1500. -/
theorem gsafc_interp_1000_1500 {c : ℤ} (h1 : 1000 ≤ c) (h2 : c ≤ 1500) :
    get_stars_amount_for_credits c =
      ⌈(2600 : ℚ) + (3850 - 2600) * (((c : ℚ) - 1000) / (1500 - 1000))⌉ := by
  rcases eq_or_lt_of_le h1 with he | h1'
  · rw [← he, show get_stars_amount_for_credits 1000 = 2600 from rfl,
      show ((2600 : ℚ) + (3850 - 2600) * ((((1000 : ℤ) : ℚ) - 1000) / (1500 - 1000))) = ((2600 : ℤ) : ℚ)
        by push_cast; ring, Int.ceil_intCast]
  rcases eq_or_lt_of_le h2 with he2 | h2'
  · rw [he2, show get_stars_amount_for_credits 1500 = 3850 from rfl,
      show ((2600 : ℚ) + (3850 - 2600) * ((((1500 : ℤ) : ℚ) - 1000) / (1500 - 1000))) = ((3850 : ℤ) : ℚ)
        by push_cast; ring, Int.ceil_intCast]
  have hl : lookupKV c stars_map = none :=
    lookupKV_stars_map_eq_none (by omega) (by omega) (by omega) (by omega) (by omega) (by omega)
  have hloop := loop_1000_1500 h1' h2'
  simp only [get_stars_amount_for_credits, hl, hloop]
  rw [show sorted_presets.headI = 150 from rfl, if_neg (by omega : ¬ c < 150),
    show sorted_presets.getLastD 0 = 2000 from rfl, if_neg (by omega : ¬ (2000 : ℤ) < c)]
  norm_num [pyOptTruthy, lookupKV, stars_map]

/-- Closed form of the converter on the whole segment between the anchors
1500 and 2000. -/
theorem gsafc_interp_1500_2000 {c : ℤ} (h1 : 1500 ≤ c) (h2 : c ≤ 2000) :
    get_stars_amount_for_credits c =
      ⌈(3850 : ℚ) + (5150 - 3850) * (((c : ℚ) - 1500) / (2000 - 1500))⌉ := by
  rcases eq_or_lt_of_le h1 with he | h1'
  · rw [← he, show get_stars_amount_for_credits 1500 = 3850 from rfl,
      show ((3850 : ℚ) + (5150 - 3850) * ((((1500 : ℤ) : ℚ) - 1500) / (2000 - 1500))) = ((3850 : ℤ) : ℚ)
        by push_cast; ring, Int.ceil_intCast]
  rcases eq_or_lt_of_le h2 with he2 | h2'
  · rw [he2, show get_stars_amount_for_credits 2000 = 5150 from rfl,
      show ((3850 : ℚ) + (5150 - 3850) * ((((2000 : ℤ) : ℚ) - 1500) / (2000 - 1500))) = ((5150 : ℤ) : ℚ)
        by push_cast; ring, Int.ceil_intCast]
  have hl : lookupKV c stars_map = none :=
    lookupKV_stars_map_eq_none (by omega) (by omega) (by omega) (by omega) (by omega) (by omega)
  have hloop := loop_1500_2000 h1' h2'
  simp only [get_stars_amount_for_credits, hl, hloop]
  rw [show sorted_presets.headI = 150 from rfl, if_neg (by omega : ¬ c < 150),
    show sorted_presets.getLastD 0 = 2000 from rfl, if_neg (by omega : ¬ (2000 : ℤ) < c)]
  norm_num [pyOptTruthy, lookupKV, stars_map]

/-- Monotonicity of the linear interpolation expression in its input. -/
theorem interp_mono {ya yb ab : ℚ} (hy : 0 ≤ yb - ya) (hab : 0 < ab) {x y : ℚ} (hxy : x ≤ y) :
    ya + (yb - ya) * (x / ab) ≤ ya + (yb - ya) * (y / ab) :=
  add_le_add_left (mul_le_mul_of_nonneg_left ((div_le_div_iff_of_pos_right hab).mpr hxy) hy) ya

/-- One step of monotonicity: the converter never decreases from `c` to
`c + 1`, across both extrapolation regions, every anchor, and every
interpolated segment. -/
theorem gsafc_step (c : ℤ) : get_stars_amount_for_credits c ≤ get_stars_amount_for_credits (c + 1) := by
  rcases lt_or_le c 149 with h | h
  · rw [gsafc_below (by omega), gsafc_below (by omega)]
    exact pyTrunc_mono ((div_le_div_iff_of_pos_right (by norm_num)).mpr (by push_cast; linarith))
  rcases lt_or_le c 150 with h' | h'
  · have hc : c = 149 := by omega
    subst hc
    have h149 : get_stars_amount_for_credits 149 = 397 := by
      rw [gsafc_below (by norm_num)]
      unfold pyTrunc
      rw [if_neg (by norm_num), Int.floor_eq_iff]
      norm_num
    rw [h149, show (149 : ℤ) + 1 = 150 from rfl,
      show get_stars_amount_for_credits 150 = 400 from rfl]
    norm_num
  rcases lt_or_le c 250 with h2 | h2
  · rw [gsafc_interp_150_250 (by omega) (by omega), gsafc_interp_150_250 (by omega) (by omega)]
    exact Int.ceil_le_ceil (interp_mono (by norm_num) (by norm_num) (by push_cast; linarith))
  rcases lt_or_le c 500 with h3 | h3
  · rw [gsafc_interp_250_500 (by omega) (by omega), gsafc_interp_250_500 (by omega) (by omega)]
    exact Int.ceil_le_ceil (interp_mono (by norm_num) (by norm_num) (by push_cast; linarith))
  rcases lt_or_le c 1000 with h4 | h4
  · rw [gsafc_interp_500_1000 (by omega) (by omega), gsafc_interp_500_1000 (by omega) (by omega)]
    exact Int.ceil_le_ceil (interp_mono (by norm_num) (by norm_num) (by push_cast; linarith))
  rcases lt_or_le c 1500 with h5 | h5
  · rw [gsafc_interp_1000_1500 (by omega) (by omega), gsafc_interp_1000_1500 (by omega) (by omega)]
    exact Int.ceil_le_ceil (interp_mono (by norm_num) (by norm_num) (by push_cast; linarith))
  rcases lt_or_le c 2000 with h6 | h6
  · rw [gsafc_interp_1500_2000 (by omega) (by omega), gsafc_interp_1500_2000 (by omega) (by omega)]
    exact Int.ceil_le_ceil (interp_mono (by norm_num) (by norm_num) (by push_cast; linarith))
  rcases eq_or_lt_of_le h6 with he | h7
  · rw [← he]
    have h2001 : get_stars_amount_for_credits (2000 + 1) = 5152 := by
      rw [show (2000 : ℤ) + 1 = 2001 from rfl, gsafc_above (by norm_num)]
      unfold pyTrunc
      rw [if_neg (by norm_num), Int.floor_eq_iff]
      norm_num
    rw [h2001, show get_stars_amount_for_credits 2000 = 5150 from rfl]
    norm_num
  · rw [gsafc_above h7, gsafc_above (by omega)]
    exact pyTrunc_mono ((div_le_div_iff_of_pos_right (by norm_num)).mpr (by push_cast; linarith))

/-! ### Claims about the currency converter -/

/-- Claim C7: the currency converter is monotone — for every pair of credit
amounts `c1 < c2`, `get_stars_amount_for_credits c1 ≤
get_stars_amount_for_credits c2`, across the below-lowest-anchor
extrapolation, the anchor table, the interpolated region, and the
above-highest-anchor extrapolation. -/
theorem claim_C7_converter_monotone (c1 c2 : ℤ) (h : c1 < c2) :
    get_stars_amount_for_credits c1 ≤ get_stars_amount_for_credits c2 :=
  monotone_int_of_le_succ gsafc_step h.le

/-- Witness for C7 at the concrete pair `100 < 375`. -/
theorem claim_C7_converter_monotone_witness :
    (100 : ℤ) < 375 ∧
      get_stars_amount_for_credits 100 ≤ get_stars_amount_for_credits 375 :=
  ⟨by decide, claim_C7_converter_monotone 100 375 (by decide)⟩

/-- Claim C8: the converter reproduces every anchor value exactly
(150→400, 250→650, 500→1300, 1000→2600, 1500→3850, 2000→5150), returns 266
for 100 credits (truncating extrapolation below the lowest anchor) and 975
for 375 credits (ceiling interpolation between the 250 and 500 anchors). -/
theorem claim_C8_converter_values :
    get_stars_amount_for_credits 150 = 400 ∧
    get_stars_amount_for_credits 250 = 650 ∧
    get_stars_amount_for_credits 500 = 1300 ∧
    get_stars_amount_for_credits 1000 = 2600 ∧
    get_stars_amount_for_credits 1500 = 3850 ∧
    get_stars_amount_for_credits 2000 = 5150 ∧
    get_stars_amount_for_credits 100 = 266 ∧
    get_stars_amount_for_credits 375 = 975 := by
  refine ⟨rfl, rfl, rfl, rfl, rfl, rfl, ?_, ?_⟩
  · rw [gsafc_below (by norm_num)]
    unfold pyTrunc
    rw [if_neg (by norm_num), Int.floor_eq_iff]
    norm_num
  · rw [gsafc_interp_250_500 (by norm_num) (by norm_num),
      show ((650 : ℚ) + (1300 - 650) * ((((375 : ℤ) : ℚ) - 250) / (500 - 250))) = ((975 : ℤ) : ℚ)
        by push_cast; norm_num, Int.ceil_intCast]

/-- Counterexample to C10: at 150 credits the invoice table prices the
top-up at 200 stars while the currency converter returns 400 stars, so the
two conversion tables disagree. -/
theorem claim_C10_counterexample :
    get_stars_for_credits 150 = 200 ∧ get_stars_amount_for_credits 150 = 400 ∧
      get_stars_for_credits 150 ≠ get_stars_amount_for_credits 150 := by decide

/-- Claim C10 (amended): the invoice star price agrees with the currency
converter exactly for credit amounts outside the `TOPUP_OPTIONS` table keys
{150, 300, 500, 1000, 2000, 3000, 4000}; on a table key the invoice uses the
table price instead of the converter value. -/
theorem claim_C10_amended_off_table (c : ℤ) (h1 : c ≠ 150) (h2 : c ≠ 300) (h3 : c ≠ 500)
    (h4 : c ≠ 1000) (h5 : c ≠ 2000) (h6 : c ≠ 3000) (h7 : c ≠ 4000) :
    get_stars_for_credits c = get_stars_amount_for_credits c := by
  have hl : lookupKV c CREDITS_TO_STARS = none := by
    simp [lookupKV, CREDITS_TO_STARS, TOPUP_OPTIONS, h1, h2, h3, h4, h5, h6, h7]
  rw [get_stars_for_credits, hl]
  rfl

/-- Witness for the amended C10 at 375 credits. -/
theorem claim_C10_amended_off_table_witness :
    ((375 : ℤ) ≠ 150 ∧ (375 : ℤ) ≠ 300 ∧ (375 : ℤ) ≠ 500 ∧ (375 : ℤ) ≠ 1000 ∧
      (375 : ℤ) ≠ 2000 ∧ (375 : ℤ) ≠ 3000 ∧ (375 : ℤ) ≠ 4000) ∧
      get_stars_for_credits 375 = get_stars_amount_for_credits 375 :=
  ⟨by decide,
   claim_C10_amended_off_table 375 (by decide) (by decide) (by decide) (by decide)
     (by decide) (by decide) (by decide)⟩

/-! ### Lemmas about the store operations -/

/-- A payment found by id satisfies the id predicate. -/
theorem findPaymentById_some {l : List PaymentRecord} {pid : ℤ} {p : PaymentRecord}
    (h : findPaymentById l pid = some p) : p.id = pid := by
  induction l with
  | nil => simp [findPaymentById] at h
  | cons q t ih =>
    rw [findPaymentById] at h
    by_cases hq : q.id = pid
    · rw [if_pos hq] at h
      rw [← Option.some.inj h]
      exact hq
    · rw [if_neg hq] at h
      exact ih h

/-- A payment found by external id carries that external id and provider. -/
theorem findPaymentByExternal_some {l : List PaymentRecord} {ext prov : String}
    {p : PaymentRecord} (h : findPaymentByExternal l ext prov = some p) :
    p.external_payment_id = some ext ∧ p.payment_provider = prov := by
  induction l with
  | nil => simp [findPaymentByExternal] at h
  | cons q t ih =>
    rw [findPaymentByExternal] at h
    by_cases hq : q.external_payment_id = some ext ∧ q.payment_provider = prov
    · rw [if_pos hq] at h
      rw [← Option.some.inj h]
      exact hq
    · rw [if_neg hq] at h
      exact ih h

/-- Looking a payment up after an id-preserving row update equals updating
the looked-up payment. -/
theorem findPaymentById_map_update {l : List PaymentRecord} {pid : ℤ}
    (g : PaymentRecord → PaymentRecord) (hg : ∀ p, (g p).id = p.id) :
    findPaymentById (l.map fun p => if p.id = pid then g p else p) pid
      = (findPaymentById l pid).map fun p => if p.id = pid then g p else p := by
  induction l with
  | nil => rfl
  | cons q t ih =>
    by_cases hq : q.id = pid
    · simp [findPaymentById, hq, hg]
    · simp [findPaymentById, hq, ih]

/-- Unfolding of the balance-update map on a cons cell. -/
theorem addBalance_cons (k b u δ : ℤ) (t : List (ℤ × ℤ)) :
    addBalance ((k, b) :: t) u δ
      = (if k = u then (k, b + δ) else (k, b)) :: addBalance t u δ := rfl

/-- Balance lookup after the balance-update map. -/
theorem findBal_addBalance (u δ v : ℤ) (l : List (ℤ × ℤ)) :
    findBal (addBalance l u δ) v
      = (findBal l v).map (fun b => if v = u then b + δ else b) := by
  induction l with
  | nil => rfl
  | cons e t ih =>
    obtain ⟨k, b⟩ := e
    rw [addBalance_cons]
    by_cases hku : k = u
    · rw [if_pos hku]
      subst hku
      by_cases hkv : k = v
      · subst hkv
        simp [findBal]
      · simp [findBal, hkv, ih]
    · rw [if_neg hku]
      by_cases hkv : k = v
      · subst hkv
        simp [findBal, hku]
      · simp [findBal, hkv, ih]

/-- Balance lookup distributes over list append. -/
theorem findBal_append (v : ℤ) (l₁ l₂ : List (ℤ × ℤ)) :
    findBal (l₁ ++ l₂) v = (findBal l₁ v).or (findBal l₂ v) := by
  induction l₁ with
  | nil => rfl
  | cons e t ih =>
    obtain ⟨k, b⟩ := e
    by_cases hkv : k = v <;> simp [findBal, hkv, ih]

/-- Crediting a user raises exactly that user's observable balance by the
delta. -/
theorem getD_credit_self (l : List (ℤ × ℤ)) (u δ : ℤ) :
    (findBal (addBalance (ensureUser l u) u δ) u).getD 0 = (findBal l u).getD 0 + δ := by
  unfold ensureUser
  cases h : findBal l u with
  | some b => simp [h, findBal_addBalance]
  | none => simp [h, findBal_addBalance, findBal_append, findBal]

/-- Crediting a user leaves every other observable balance unchanged. -/
theorem getD_credit_other (l : List (ℤ × ℤ)) (u δ v : ℤ) (h : v ≠ u) :
    (findBal (addBalance (ensureUser l u) u δ) v).getD 0 = (findBal l v).getD 0 := by
  unfold ensureUser
  cases hf : findBal l u with
  | some b =>
    rw [show (if (some b).isSome = true then l else l ++ [(u, 0)]) = l by simp,
      findBal_addBalance]
    cases hv : findBal l v <;> simp [hv, h]
  | none =>
    rw [show (if (none : Option ℤ).isSome = true then l else l ++ [(u, 0)]) = l ++ [(u, 0)]
        by simp,
      findBal_addBalance, findBal_append]
    cases hv : findBal l v <;> simp [hv, h, findBal, Ne.symm h]

/-- `db_add_credits` raises the credited user's balance by the delta. -/
theorem balanceOf_db_add_credits_self (db : DB) (u δ : ℤ) :
    balanceOf (db_add_credits db u δ) u = balanceOf db u + δ :=
  getD_credit_self db.balances u δ

/-- `db_add_credits` leaves other balances unchanged. -/
theorem balanceOf_db_add_credits_other (db : DB) {u v : ℤ} (δ : ℤ) (h : v ≠ u) :
    balanceOf (db_add_credits db u δ) v = balanceOf db v :=
  getD_credit_other db.balances u δ v h

/-- On a nonnegative value Python truncation is the floor. -/
theorem pyTrunc_eq_floor_of_nonneg {q : ℚ} (h : 0 ≤ q) : pyTrunc q = ⌊q⌋ :=
  if_neg (not_lt.mpr h)

/-- Two stores with equal components are equal. -/
theorem DB.ext' {a b : DB} (h1 : a.payments = b.payments) (h2 : a.balances = b.balances)
    (h3 : a.referrals = b.referrals) : a = b := by
  cases a
  cases b
  simp_all

/-- The referral-bonus operation never touches the payments table. -/
theorem payments_db_add_referral_bonus (db : DB) (amount : ℤ) (o : Option ℤ) :
    ((db_add_referral_bonus db amount o).2).payments = db.payments := by
  unfold db_add_referral_bonus
  dsimp only
  split_ifs <;> rfl

/-- The referral-bonus operation never touches the referrals table. -/
theorem referrals_db_add_referral_bonus (db : DB) (amount : ℤ) (o : Option ℤ) :
    ((db_add_referral_bonus db amount o).2).referrals = db.referrals := by
  unfold db_add_referral_bonus
  dsimp only
  split_ifs <;> rfl

/-- The balances produced by the referral-bonus operation depend only on the
incoming balances. -/
theorem balances_db_add_referral_bonus_congr {db db' : DB} (amount : ℤ) (o : Option ℤ)
    (h : db.balances = db'.balances) :
    ((db_add_referral_bonus db amount o).2).balances
      = ((db_add_referral_bonus db' amount o).2).balances := by
  unfold db_add_referral_bonus
  dsimp only
  split_ifs <;> simp [h]

/-- Full unfolding of a provider-driven completion run on a pending payment
supplied as `payment_data` (the handler path). -/
theorem process_success_run (db : DB) (payment_id user_id amount stars_amount : ℤ)
    (p : PaymentRecord) (hst : ¬ p.status = "completed") :
    process_payment_success db true payment_id user_id amount stars_amount (some p)
      = ((true, some p),
         db_update_payment_usd_breakdown
           (db_update_referral_status
             (if pyOptTruthy p.bot_owner_id then
                (db_add_referral_bonus
                  ((db_update_payment_status_by_id (db_add_credits db user_id amount)
                    payment_id "completed").2) amount p.bot_owner_id).2
              else
                (db_update_payment_status_by_id (db_add_credits db user_id amount)
                  payment_id "completed").2)
             user_id "completed")
           payment_id (some ((stars_amount : ℚ) * STARS_TO_USD_RATE))
           (some ((stars_amount : ℚ) * STARS_TO_USD_RATE)) (some 0)) := by
  simp [process_payment_success, hst]

/-- Full unfolding of a provider-driven completion run on a pending payment
looked up from the store. -/
theorem process_success_run_none (db : DB) (payment_id user_id amount stars_amount : ℤ)
    (p : PaymentRecord) (hfind : get_payment_by_id db payment_id = some p) :
    process_payment_success db true payment_id user_id amount stars_amount none
      = process_payment_success db true payment_id user_id amount stars_amount (some p) := by
  simp [process_payment_success, hfind]

/-- Full unfolding of a manual completion run on a pending payment. -/
theorem process_manual_run (db : DB) (ext prov : String) (p : PaymentRecord)
    (hfind : get_payment_by_external_id db ext prov = some p)
    (hst : ¬ p.status = "completed") :
    process_payment_manually db true ext prov
      = ((true, some p),
         (db_update_payment_status_by_id
           (db_update_referral_status
             (if pyOptTruthy p.bot_owner_id then
                (db_add_referral_bonus (db_add_credits db p.user_id p.amount)
                  p.amount p.bot_owner_id).2
              else db_add_credits db p.user_id p.amount)
             p.user_id "completed")
           p.id "completed").2) := by
  have hprov : p.payment_provider = prov := (findPaymentByExternal_some hfind).2
  simp [process_payment_manually, hfind, hprov, hst]

/-! ### Claims about the payment lifecycle -/

/-- Claim C3: if the balance-credit step of completion fails, the operation
returns failure and the store is completely unchanged, so the payment stays
`pending` and no status update, referral bonus, referral-status update or
USD-breakdown write happens after the failed credit. -/
theorem claim_C3_credit_failure_aborts (db : DB)
    (payment_id user_id amount stars_amount : ℤ) (p : PaymentRecord)
    (hst : p.status ≠ "completed") :
    process_payment_success db false payment_id user_id amount stars_amount (some p)
      = ((false, none), db) := by
  simp [process_payment_success, hst]

/-- Witness for C3 on the sample pending payment. -/
theorem claim_C3_credit_failure_aborts_witness :
    payPending.status ≠ "completed" ∧
      process_payment_success sampleDB false 1 7 100 266 (some payPending)
        = ((false, none), sampleDB) :=
  ⟨by decide, claim_C3_credit_failure_aborts sampleDB 1 7 100 266 payPending (by decide)⟩

/-- Claim C5: manual completion of an already-completed payment returns
success without touching the store — the same idempotency short-circuit as
the provider-driven path. -/
theorem claim_C5_manual_idempotent (db : DB) (creditOk : Bool) (ext prov : String)
    (p : PaymentRecord) (hfind : get_payment_by_external_id db ext prov = some p)
    (hst : p.status = "completed") :
    process_payment_manually db creditOk ext prov = ((true, none), db) := by
  have hprov : p.payment_provider = prov := (findPaymentByExternal_some hfind).2
  simp [process_payment_manually, hfind, hprov, hst]

/-- Witness for C5 on the sample completed payment. -/
theorem claim_C5_manual_idempotent_witness :
    get_payment_by_external_id sampleDB "stars_4" "stars" = some payDone ∧
      payDone.status = "completed" ∧
      process_payment_manually sampleDB true "stars_4" "stars" = ((true, none), sampleDB) :=
  ⟨by decide, by decide,
   claim_C5_manual_idempotent sampleDB true "stars_4" "stars" payDone (by decide) (by decide)⟩

/-- Claim C2: when the user attached to the provider success message differs
from the payment's recorded user, the completion entry point returns with
the store completely unchanged — no balance, status or other field moves. -/
theorem claim_C2_user_mismatch_no_mutation (db : DB) (creditOk : Bool)
    (from_user : Option ℤ) (payload : String) (total_amount : ℤ) (pid : ℤ)
    (p : PaymentRecord) (hex : _extract_payment_id_from_payload payload = some pid)
    (hfind : get_payment_by_id db pid = some p)
    (hmm : from_user ≠ some p.user_id) :
    on_successful_payment db creditOk from_user payload total_amount = db := by
  simp only [on_successful_payment, hex]
  by_cases h0 : pid = 0
  · simp [h0]
  · simp only [if_neg h0, hfind]
    by_cases hprov : p.payment_provider ≠ "stars"
    · simp [hprov]
    · simp [hprov, hmm]

/-- Witness for C2: a success message from user 8 for a payment recorded for
user 7 leaves the sample store untouched. -/
theorem claim_C2_user_mismatch_no_mutation_witness :
    _extract_payment_id_from_payload "payment_1" = some 1 ∧
      get_payment_by_id sampleDB 1 = some payPending ∧
      (some 8 : Option ℤ) ≠ some payPending.user_id ∧
      on_successful_payment sampleDB true (some 8) "payment_1" 266 = sampleDB :=
  ⟨by decide, by decide, by decide,
   claim_C2_user_mismatch_no_mutation sampleDB true (some 8) "payment_1" 266 1 payPending
     (by decide) (by decide) (by decide)⟩

/-- Counterexample to C4 as stated: the payload `payment_0` decodes to the
payment id 0, no payment with id 0 exists in the empty store, yet the gate
rejects with the invalid-payload reason instead of not-found, because the
handler treats a decoded id of 0 as a missing id. -/
theorem claim_C4_counterexample :
    _extract_payment_id_from_payload "payment_0" = some 0 ∧
      get_payment_by_id { payments := [], balances := [], referrals := [] } 0 = none ∧
      (pre_checkout_handler { payments := [], balances := [], referrals := [] }
          "payment_0").1 ≠ .reject "stars_bot_payment_not_found" ∧
      (pre_checkout_handler { payments := [], balances := [], referrals := [] }
          "payment_0").1 = .reject "stars_bot_invalid_payload" := by decide

/-- Claim C4 (amended): the pre-checkout gate never mutates the store, and
it rejects with the invalid-payload reason when the payload does not decode
to a nonzero payment id (a decoded id of 0 is treated as invalid payload),
rejects with not-found when the decoded id is nonzero and no such payment
exists, rejects with already-processed when that payment is `completed`, and
otherwise accepts. -/
theorem claim_C4_amended_gate (db : DB) (payload : String) :
    (pre_checkout_handler db payload).2 = db ∧
    ((_extract_payment_id_from_payload payload = none ∨
        _extract_payment_id_from_payload payload = some 0) →
      (pre_checkout_handler db payload).1 = .reject "stars_bot_invalid_payload") ∧
    (∀ pid, _extract_payment_id_from_payload payload = some pid → pid ≠ 0 →
      (get_payment_by_id db pid = none →
        (pre_checkout_handler db payload).1 = .reject "stars_bot_payment_not_found") ∧
      (∀ p, get_payment_by_id db pid = some p →
        (p.status = "completed" →
          (pre_checkout_handler db payload).1 = .reject "stars_bot_payment_already_processed") ∧
        (p.status ≠ "completed" → (pre_checkout_handler db payload).1 = .accept))) := by
  refine ⟨?_, ?_, ?_⟩
  · simp only [pre_checkout_handler]
    by_cases ht : pyOptTruthy (_extract_payment_id_from_payload payload) = false
    · simp [ht]
    · simp only [if_neg ht]
      cases hg : get_payment_by_id db ((_extract_payment_id_from_payload payload).getD 0) with
      | none => simp
      | some p => by_cases hs : p.status = "completed" <;> simp [hs]
  · intro hbad
    have ht : pyOptTruthy (_extract_payment_id_from_payload payload) = false := by
      rcases hbad with hb | hb <;> simp [hb, pyOptTruthy]
    simp [pre_checkout_handler, ht]
  · intro pid hex hpid
    have ht : ¬ pyOptTruthy (_extract_payment_id_from_payload payload) = false := by
      simp [hex, pyOptTruthy, hpid]
    have hgd : (_extract_payment_id_from_payload payload).getD 0 = pid := by simp [hex]
    constructor
    · intro hnone
      simp [pre_checkout_handler, ht, hgd, hnone]
    · intro p hp
      constructor
      · intro hs
        simp [pre_checkout_handler, ht, hgd, hp, hs]
      · intro hs
        simp [pre_checkout_handler, ht, hgd, hp, hs]

/-- Witness for the amended C4: on the sample store the gate accepts a
pending payment, rejects a completed one, an unknown id, and a malformed
payload, each without mutating the store. -/
theorem claim_C4_amended_gate_witness :
    (pre_checkout_handler sampleDB "payment_1").2 = sampleDB ∧
      (pre_checkout_handler sampleDB "payment_1").1 = .accept ∧
      (pre_checkout_handler sampleDB "payment_4").1
        = .reject "stars_bot_payment_already_processed" ∧
      (pre_checkout_handler sampleDB "payment_9").1
        = .reject "stars_bot_payment_not_found" ∧
      (pre_checkout_handler sampleDB "bogus").1 = .reject "stars_bot_invalid_payload" :=
  ⟨(claim_C4_amended_gate sampleDB "payment_1").1,
   (((claim_C4_amended_gate sampleDB "payment_1").2.2 1 (by decide) (by decide)).2
     payPending (by decide)).2 (by decide),
   (((claim_C4_amended_gate sampleDB "payment_4").2.2 4 (by decide) (by decide)).2
     payDone (by decide)).1 (by decide),
   ((claim_C4_amended_gate sampleDB "payment_9").2.2 9 (by decide) (by decide)).1 (by decide),
   (claim_C4_amended_gate sampleDB "bogus").2.1 (Or.inl (by decide))⟩

/-- The payments table after a completion run: status set to `completed` and
the USD breakdown written, nothing else. -/
theorem payments_after_success (db : DB) (payment_id user_id amount stars_amount : ℤ)
    (p : PaymentRecord) (hst : ¬ p.status = "completed") :
    ((process_payment_success db true payment_id user_id amount stars_amount (some p)).2).payments
      = updateUsd (updateStatus db.payments payment_id "completed") payment_id
          (some ((stars_amount : ℚ) * STARS_TO_USD_RATE))
          (some ((stars_amount : ℚ) * STARS_TO_USD_RATE)) (some 0) := by
  rw [process_success_run db payment_id user_id amount stars_amount p hst]
  simp only [db_update_payment_usd_breakdown, db_update_referral_status,
    db_update_payment_status_by_id, db_add_credits]
  congr 1
  by_cases hb : pyOptTruthy p.bot_owner_id
  · simp [hb, payments_db_add_referral_bonus]
  · simp [hb]

/-- Looking the payment up after its completion run yields the completed,
USD-annotated row. -/
theorem get_payment_after_success (db : DB) (payment_id user_id amount stars_amount : ℤ)
    (p : PaymentRecord) (hfind : get_payment_by_id db payment_id = some p)
    (hst : ¬ p.status = "completed") :
    get_payment_by_id
        ((process_payment_success db true payment_id user_id amount stars_amount (some p)).2)
        payment_id
      = some { p with
               status := "completed"
               net_amount_usd := some ((stars_amount : ℚ) * STARS_TO_USD_RATE)
               gross_amount_usd := some ((stars_amount : ℚ) * STARS_TO_USD_RATE)
               fee_amount_usd := some 0 } := by
  have hid : p.id = payment_id := findPaymentById_some hfind
  rw [get_payment_by_id,
    payments_after_success db payment_id user_id amount stars_amount p hst,
    updateUsd,
    findPaymentById_map_update
      (fun q => { q with
                  net_amount_usd := some ((stars_amount : ℚ) * STARS_TO_USD_RATE)
                  gross_amount_usd := some ((stars_amount : ℚ) * STARS_TO_USD_RATE)
                  fee_amount_usd := some 0 })
      (fun q => rfl),
    updateStatus,
    findPaymentById_map_update (fun q => { q with status := "completed" }) (fun q => rfl)]
  rw [get_payment_by_id] at hfind
  rw [hfind]
  simp [hid]

/-- Claim C1: completion is idempotent.  A payment whose stored status is
already `completed` makes `process_payment_success` return success with the
store untouched, and running completion twice in sequence for the same
payment id leaves the store exactly as after the first run, so the balance
is credited exactly once. -/
theorem claim_C1_completion_idempotent :
    (∀ (db : DB) (payment_id user_id amount stars_amount : ℤ) (c : Bool) (p : PaymentRecord),
        get_payment_by_id db payment_id = some p → p.status = "completed" →
        process_payment_success db c payment_id user_id amount stars_amount none
          = ((true, none), db)) ∧
    (∀ (db : DB) (payment_id user_id amount stars_amount : ℤ) (c2 : Bool) (p : PaymentRecord),
        get_payment_by_id db payment_id = some p → p.status ≠ "completed" →
        process_payment_success
            ((process_payment_success db true payment_id user_id amount stars_amount none).2)
            c2 payment_id user_id amount stars_amount none
          = ((true, none),
             (process_payment_success db true payment_id user_id amount stars_amount none).2)) := by
  constructor
  · intro db payment_id user_id amount stars_amount c p hfind hst
    simp [process_payment_success, hfind, hst]
  · intro db payment_id user_id amount stars_amount c2 p hfind hst
    rw [process_success_run_none db payment_id user_id amount stars_amount p hfind]
    have hq := get_payment_after_success db payment_id user_id amount stars_amount p hfind hst
    rw [process_success_run db payment_id user_id amount stars_amount p hst] at hq ⊢
    simp [process_payment_success, hq]

/-- Witness for C1: the completed sample payment short-circuits, and the
pending sample payment absorbs a duplicate completion. -/
theorem claim_C1_completion_idempotent_witness :
    (get_payment_by_id sampleDB 4 = some payDone ∧ payDone.status = "completed" ∧
      process_payment_success sampleDB true 4 7 100 266 none = ((true, none), sampleDB)) ∧
    (get_payment_by_id sampleDB 1 = some payPending ∧ payPending.status ≠ "completed" ∧
      process_payment_success ((process_payment_success sampleDB true 1 7 100 266 none).2)
          true 1 7 100 266 none
        = ((true, none), (process_payment_success sampleDB true 1 7 100 266 none).2)) :=
  ⟨⟨by decide, by decide,
    claim_C1_completion_idempotent.1 sampleDB 4 7 100 266 true payDone (by decide) (by decide)⟩,
   ⟨by decide, by decide,
    claim_C1_completion_idempotent.2 sampleDB 1 7 100 266 true payPending
      (by decide) (by decide)⟩⟩

/-- Counterexample to C9 as stated: the sample payment has `bot_owner_id`
set (to 0) and a computed bonus of `floor(100 * 0.05) = 5 > 0`, yet
completion leaves the balance of user 0 untouched, because the code treats
an owner id of 0 like an absent owner. -/
theorem claim_C9_counterexample :
    payOwnerZero.bot_owner_id = some 0 ∧
      ⌊(payOwnerZero.amount : ℚ) * (5 / 100)⌋ = 5 ∧
      balanceOf ((process_payment_success sampleDB true 3 7 100 266
          (some payOwnerZero)).2) 0 = 0 ∧
      balanceOf sampleDB 0 = 0 := by
  refine ⟨by decide, ?_, by decide, by decide⟩
  rw [show (payOwnerZero.amount : ℚ) = 100 by decide, Int.floor_eq_iff]
  norm_num

/-- Claim C9 (amended): when completion runs for a payment whose
`bot_owner_id` is set to a nonzero owner, the owner balance grows by exactly
`floor(credits * 0.05)` when that value is positive and by nothing from the
bonus step otherwise — on top of the ordinary user credit itself when the
owner happens to be the paying user. -/
theorem claim_C9_amended_referral_bonus (db : DB) (stars_amount : ℤ) (p : PaymentRecord)
    (o : ℤ) (hst : p.status ≠ "completed") (ho : p.bot_owner_id = some o) (ho0 : o ≠ 0)
    (hamt : 0 < p.amount) :
    balanceOf ((process_payment_success db true p.id p.user_id p.amount stars_amount
        (some p)).2) o
      = balanceOf db o + (if o = p.user_id then p.amount else 0) +
        (if 0 < ⌊(p.amount : ℚ) * (5 / 100)⌋ then ⌊(p.amount : ℚ) * (5 / 100)⌋ else 0) := by
  have hfloor : pyTrunc ((p.amount : ℚ) * (5 / 100)) = ⌊(p.amount : ℚ) * (5 / 100)⌋ :=
    pyTrunc_eq_floor_of_nonneg
      (mul_nonneg (by exact_mod_cast hamt.le) (by norm_num))
  have htruthy : pyOptTruthy (some o) = true := by simp [pyOptTruthy, ho0]
  have hcredit : (findBal (addBalance (ensureUser db.balances p.user_id) p.user_id
        p.amount) o).getD 0
      = (findBal db.balances o).getD 0 + (if o = p.user_id then p.amount else 0) := by
    by_cases ho_u : o = p.user_id
    · rw [if_pos ho_u, ho_u]
      exact getD_credit_self db.balances p.user_id p.amount
    · rw [if_neg ho_u, add_zero]
      exact getD_credit_other db.balances p.user_id p.amount o ho_u
  rw [process_success_run db p.id p.user_id p.amount stars_amount p hst]
  rw [ho, if_pos htruthy]
  simp only [balanceOf, db_update_payment_usd_breakdown, db_update_referral_status]
  unfold db_add_referral_bonus
  dsimp only
  rw [if_neg (by simp [htruthy]), hfloor]
  by_cases hbonus : ⌊(p.amount : ℚ) * (5 / 100)⌋ ≤ 0
  · rw [if_pos hbonus]
    simp only [db_update_payment_status_by_id, db_add_credits]
    rw [if_neg (by omega : ¬ 0 < ⌊(p.amount : ℚ) * (5 / 100)⌋), add_zero]
    exact hcredit
  · rw [if_neg hbonus]
    simp only [db_update_payment_status_by_id, db_add_credits, Option.getD_some]
    rw [getD_credit_self, hcredit,
      if_pos (by omega : 0 < ⌊(p.amount : ℚ) * (5 / 100)⌋)]

/-- Witness for the amended C9, applied both to the sample payment
attributed to the distinct owner 5 and to the self-owned sample payment,
whose owner receives the bonus on top of the user credit. -/
theorem claim_C9_amended_referral_bonus_witness :
    (payOwner.status ≠ "completed" ∧ payOwner.bot_owner_id = some 5 ∧ (5 : ℤ) ≠ 0 ∧
      0 < payOwner.amount ∧
      balanceOf ((process_payment_success sampleDB true payOwner.id payOwner.user_id
          payOwner.amount 266 (some payOwner)).2) 5
        = balanceOf sampleDB 5 + (if (5 : ℤ) = payOwner.user_id then payOwner.amount else 0) +
          (if 0 < ⌊(payOwner.amount : ℚ) * (5 / 100)⌋ then ⌊(payOwner.amount : ℚ) * (5 / 100)⌋
           else 0)) ∧
    (payOwnerSelf.status ≠ "completed" ∧ payOwnerSelf.bot_owner_id = some 7 ∧ (7 : ℤ) ≠ 0 ∧
      0 < payOwnerSelf.amount ∧
      balanceOf ((process_payment_success selfOwnerDB true payOwnerSelf.id
          payOwnerSelf.user_id payOwnerSelf.amount 266 (some payOwnerSelf)).2) 7
        = balanceOf selfOwnerDB 7 +
          (if (7 : ℤ) = payOwnerSelf.user_id then payOwnerSelf.amount else 0) +
          (if 0 < ⌊(payOwnerSelf.amount : ℚ) * (5 / 100)⌋
           then ⌊(payOwnerSelf.amount : ℚ) * (5 / 100)⌋ else 0)) :=
  ⟨⟨by decide, by decide, by decide, by decide,
    claim_C9_amended_referral_bonus sampleDB 266 payOwner 5 (by decide) (by decide)
      (by decide) (by decide)⟩,
   ⟨by decide, by decide, by decide, by decide,
    claim_C9_amended_referral_bonus selfOwnerDB 266 payOwnerSelf 7 (by decide) (by decide)
      (by decide) (by decide)⟩⟩

/-- Counterexample to C6 as stated: completing the sample pending payment
through the provider path and through the manual path leaves different final
stores, because only the provider path writes the USD breakdown. -/
theorem claim_C6_counterexample :
    get_payment_by_external_id sampleDB "stars_1" "stars" = some payPending ∧
      payPending.status ≠ "completed" ∧
      (process_payment_manually sampleDB true "stars_1" "stars").2
        ≠ (process_payment_success sampleDB true 1 7 100 266 (some payPending)).2 := by decide

/-- Claim C6 (amended): on a pending payment the manual path performs the
same completion sequence as the provider path except the USD-breakdown
write: the provider-path result equals the manual-path result with the USD
breakdown written on top, and both report the same success value. -/
theorem claim_C6_amended_manual_vs_success (db : DB) (stars_amount : ℤ) (ext prov : String)
    (p : PaymentRecord) (hfind : get_payment_by_external_id db ext prov = some p)
    (hst : p.status ≠ "completed") :
    process_payment_success db true p.id p.user_id p.amount stars_amount (some p)
      = ((true, some p),
         db_update_payment_usd_breakdown (process_payment_manually db true ext prov).2 p.id
           (some ((stars_amount : ℚ) * STARS_TO_USD_RATE))
           (some ((stars_amount : ℚ) * STARS_TO_USD_RATE)) (some 0)) ∧
      (process_payment_manually db true ext prov).1 = (true, some p) := by
  rw [process_success_run db p.id p.user_id p.amount stars_amount p hst,
    process_manual_run db ext prov p hfind hst]
  refine ⟨?_, rfl⟩
  congr 1
  apply DB.ext'
  · simp only [db_update_payment_usd_breakdown, db_update_referral_status,
      db_update_payment_status_by_id, db_add_credits]
    congr 1
    by_cases hb : pyOptTruthy p.bot_owner_id <;>
      simp [hb, payments_db_add_referral_bonus]
  · simp only [db_update_payment_usd_breakdown, db_update_referral_status,
      db_update_payment_status_by_id, db_add_credits]
    by_cases hb : pyOptTruthy p.bot_owner_id
    · simp only [if_pos hb]
      exact balances_db_add_referral_bonus_congr p.amount p.bot_owner_id rfl
    · simp [hb]
  · simp only [db_update_payment_usd_breakdown, db_update_referral_status,
      db_update_payment_status_by_id, db_add_credits]
    by_cases hb : pyOptTruthy p.bot_owner_id <;>
      simp [hb, referrals_db_add_referral_bonus]

/-- Witness for the amended C6 on the sample pending payment. -/
theorem claim_C6_amended_manual_vs_success_witness :
    get_payment_by_external_id sampleDB "stars_1" "stars" = some payPending ∧
      payPending.status ≠ "completed" ∧
      (process_payment_success sampleDB true payPending.id payPending.user_id
          payPending.amount 266 (some payPending)
        = ((true, some payPending),
           db_update_payment_usd_breakdown
             (process_payment_manually sampleDB true "stars_1" "stars").2 payPending.id
             (some ((266 : ℚ) * STARS_TO_USD_RATE)) (some ((266 : ℚ) * STARS_TO_USD_RATE))
             (some 0)) ∧
        (process_payment_manually sampleDB true "stars_1" "stars").1
          = (true, some payPending)) :=
  ⟨by decide, by decide,
   claim_C6_amended_manual_vs_success sampleDB 266 "stars_1" "stars" payPending
     (by decide) (by decide)⟩
